import Mathlib

/-!
Shallow embedding of `src/index.ts` of the google_search_mcp_server
repository: the rate limiter, argument validation, query building,
upstream-response handling, result formatting and the call-tool dispatch.
Timestamps are integer milliseconds (JS `Date.now()`); machine arithmetic
on them is exact integer arithmetic, as in JS for these magnitudes.
-/

/-- Configuration object `RATE_LIMIT` (index.ts lines 102-105). -/
structure RateLimitConfig where
  perDay : Nat
  perSecond : Nat
deriving DecidableEq

/-- Google API free tier allows 100 search queries per day; 5 per second. -/
def RATE_LIMIT : RateLimitConfig := { perDay := 100, perSecond := 5 }

/-- The mutable `requestCount` record (index.ts lines 107-112): daily and
per-second counters plus the start timestamps of the two fixed windows. -/
structure RequestCount where
  daily : Nat
  second : Nat
  lastSecondReset : Int
  lastDayReset : Int
deriving DecidableEq

/-- Models `new Date(now).setHours(0, 0, 0, 0)`: the start of the current
day containing `now`, here at UTC midnight (the limiter only ever compares
these values to each other, so the timezone offset is irrelevant to its
logic). -/
def startOfDay (now : Int) : Int := 86400000 * (now / 86400000)

/-- The window-maintenance half of `checkRateLimit` (index.ts lines
115-127): reset the second counter if more than 1000ms have passed since
`lastSecondReset`, and reset the daily counter if the start of the current
day is strictly later than `lastDayReset`. -/
def rateMaintain (rc : RequestCount) (now : Int) : RequestCount :=
  let rc1 :=
    if now - rc.lastSecondReset > 1000 then
      { rc with second := 0, lastSecondReset := now }
    else rc
  if startOfDay now > rc1.lastDayReset then
    { rc1 with daily := 0, lastDayReset := startOfDay now }
  else rc1

/-- `checkRateLimit` (index.ts lines 114-136): window maintenance, then the
cap check (`second >= perSecond || daily >= perDay` throws
"Rate limit exceeded"), otherwise both counters are incremented. The state
component is the value of `requestCount` after the call: mutations made by
window maintenance persist even when the function throws. -/
def checkRateLimit (rc : RequestCount) (now : Int) :
    Except String Unit × RequestCount :=
  let rc2 := rateMaintain rc now
  if RATE_LIMIT.perSecond ≤ rc2.second ∨ RATE_LIMIT.perDay ≤ rc2.daily then
    (Except.error "Rate limit exceeded", rc2)
  else
    (Except.ok (), { rc2 with second := rc2.second + 1, daily := rc2.daily + 1 })

/-- Run a sequence of rate-limit checks at the given timestamps, collecting
for each whether it was admitted, threading the mutated state. -/
def runChecks (rc : RequestCount) (times : List Int) : List Bool × RequestCount :=
  match times with
  | [] => ([], rc)
  | t :: ts =>
    let step := checkRateLimit rc t
    let rest := runChecks step.snd ts
    ((match step.fst with
      | Except.ok _ => true
      | Except.error _ => false) :: rest.fst, rest.snd)

theorem rateMaintain_no_reset (rc : RequestCount) (now : Int)
    (hs : now - rc.lastSecondReset ≤ 1000)
    (hd : startOfDay now ≤ rc.lastDayReset) :
    rateMaintain rc now = rc := by
  unfold rateMaintain
  rw [if_neg (not_lt.mpr hs), if_neg (not_lt.mpr hd)]

theorem checkRateLimit_admit (rc : RequestCount) (now : Int)
    (hs : now - rc.lastSecondReset ≤ 1000)
    (hd : startOfDay now ≤ rc.lastDayReset)
    (hsec : rc.second < RATE_LIMIT.perSecond)
    (hdaily : rc.daily < RATE_LIMIT.perDay) :
    checkRateLimit rc now =
      (Except.ok (), { rc with second := rc.second + 1, daily := rc.daily + 1 }) := by
  unfold checkRateLimit
  rw [rateMaintain_no_reset rc now hs hd,
    if_neg (by push_neg; exact ⟨hsec, hdaily⟩)]

theorem checkRateLimit_reject_second (rc : RequestCount) (now : Int)
    (hs : now - rc.lastSecondReset ≤ 1000)
    (hd : startOfDay now ≤ rc.lastDayReset)
    (hsec : RATE_LIMIT.perSecond ≤ rc.second) :
    checkRateLimit rc now = (Except.error "Rate limit exceeded", rc) := by
  unfold checkRateLimit
  rw [rateMaintain_no_reset rc now hs hd, if_pos (Or.inl hsec)]

theorem checkRateLimit_reset_admit (rc : RequestCount) (now : Int)
    (hs : 1000 < now - rc.lastSecondReset)
    (hd : startOfDay now ≤ rc.lastDayReset)
    (hdaily : rc.daily < RATE_LIMIT.perDay) :
    checkRateLimit rc now =
      (Except.ok (),
        { rc with second := 1, lastSecondReset := now, daily := rc.daily + 1 }) := by
  have hm : rateMaintain rc now = { rc with second := 0, lastSecondReset := now } := by
    unfold rateMaintain
    rw [if_pos hs, if_neg (not_lt.mpr hd)]
  unfold checkRateLimit
  rw [hm, if_neg (by push_neg; exact ⟨by simp [RATE_LIMIT], hdaily⟩)]

theorem rateMaintain_fields (rc : RequestCount) (now : Int) :
    (rateMaintain rc now).second =
      (if 1000 < now - rc.lastSecondReset then 0 else rc.second) ∧
    (rateMaintain rc now).lastSecondReset =
      (if 1000 < now - rc.lastSecondReset then now else rc.lastSecondReset) ∧
    (rateMaintain rc now).daily =
      (if rc.lastDayReset < startOfDay now then 0 else rc.daily) ∧
    (rateMaintain rc now).lastDayReset =
      (if rc.lastDayReset < startOfDay now then startOfDay now
       else rc.lastDayReset) := by
  unfold rateMaintain
  by_cases h1 : 1000 < now - rc.lastSecondReset <;>
    by_cases h2 : rc.lastDayReset < startOfDay now <;>
      simp [h1, h2]

/-- C1: within one second window (every timestamp at most 1000ms after the
stored `lastSecondReset`) and with the daily counter comfortably below its
cap, the first `perSecond` (= 5) checks are admitted, the sixth check in the
same window is rejected with "Rate limit exceeded", and a later check more
than 1000ms after the stored window start resets the second counter and is
admitted again (its post-call second counter is 1). -/
theorem rate_second_window_sequence
    (rc : RequestCount) (t1 t2 t3 t4 t5 t6 t7 : Int)
    (hsec : rc.second = 0)
    (hday : rc.daily + 6 ≤ RATE_LIMIT.perDay)
    (hw : ∀ t ∈ [t1, t2, t3, t4, t5, t6],
      t - rc.lastSecondReset ≤ 1000 ∧ startOfDay t ≤ rc.lastDayReset)
    (h7 : 1000 < t7 - rc.lastSecondReset)
    (hd7 : startOfDay t7 ≤ rc.lastDayReset) :
    (runChecks rc [t1, t2, t3, t4, t5, t6]).fst =
      [true, true, true, true, true, false] ∧
    (checkRateLimit (runChecks rc [t1, t2, t3, t4, t5, t6]).snd t7).fst =
      Except.ok () ∧
    (checkRateLimit (runChecks rc [t1, t2, t3, t4, t5, t6]).snd t7).snd.second
      = 1 := by
  obtain ⟨d, s, lsr, ldr⟩ := rc
  simp only at hsec
  subst hsec
  simp only [RATE_LIMIT] at hday
  obtain ⟨h1, hd1⟩ := hw t1 (by simp)
  obtain ⟨h2, hd2⟩ := hw t2 (by simp)
  obtain ⟨h3, hd3⟩ := hw t3 (by simp)
  obtain ⟨h4, hd4⟩ := hw t4 (by simp)
  obtain ⟨h5, hd5⟩ := hw t5 (by simp)
  obtain ⟨h6, hd6⟩ := hw t6 (by simp)
  have s1 : checkRateLimit ⟨d, 0, lsr, ldr⟩ t1 =
      (Except.ok (), ⟨d + 1, 1, lsr, ldr⟩) :=
    checkRateLimit_admit _ _ h1 hd1 (by simp [RATE_LIMIT])
      (by simp only [RATE_LIMIT]; omega)
  have s2 : checkRateLimit ⟨d + 1, 1, lsr, ldr⟩ t2 =
      (Except.ok (), ⟨d + 2, 2, lsr, ldr⟩) := by
    have := checkRateLimit_admit ⟨d + 1, 1, lsr, ldr⟩ t2 h2 hd2
      (by simp [RATE_LIMIT]) (by simp only [RATE_LIMIT]; omega)
    simpa using this
  have s3 : checkRateLimit ⟨d + 2, 2, lsr, ldr⟩ t3 =
      (Except.ok (), ⟨d + 3, 3, lsr, ldr⟩) := by
    have := checkRateLimit_admit ⟨d + 2, 2, lsr, ldr⟩ t3 h3 hd3
      (by simp [RATE_LIMIT]) (by simp only [RATE_LIMIT]; omega)
    simpa using this
  have s4 : checkRateLimit ⟨d + 3, 3, lsr, ldr⟩ t4 =
      (Except.ok (), ⟨d + 4, 4, lsr, ldr⟩) := by
    have := checkRateLimit_admit ⟨d + 3, 3, lsr, ldr⟩ t4 h4 hd4
      (by simp [RATE_LIMIT]) (by simp only [RATE_LIMIT]; omega)
    simpa using this
  have s5 : checkRateLimit ⟨d + 4, 4, lsr, ldr⟩ t5 =
      (Except.ok (), ⟨d + 5, 5, lsr, ldr⟩) := by
    have := checkRateLimit_admit ⟨d + 4, 4, lsr, ldr⟩ t5 h5 hd5
      (by simp [RATE_LIMIT]) (by simp only [RATE_LIMIT]; omega)
    simpa using this
  have s6 : checkRateLimit ⟨d + 5, 5, lsr, ldr⟩ t6 =
      (Except.error "Rate limit exceeded", ⟨d + 5, 5, lsr, ldr⟩) :=
    checkRateLimit_reject_second _ _ h6 hd6 (by simp [RATE_LIMIT])
  have s7 : checkRateLimit ⟨d + 5, 5, lsr, ldr⟩ t7 =
      (Except.ok (), ⟨d + 6, 1, t7, ldr⟩) := by
    have := checkRateLimit_reset_admit ⟨d + 5, 5, lsr, ldr⟩ t7 h7 hd7
      (by simp only [RATE_LIMIT]; omega)
    simpa using this
  simp [runChecks, s1, s2, s3, s4, s5, s6, s7]

/-- Concrete witness for `rate_second_window_sequence`: a fresh counter at
time 0, checks at 0..500ms, then one at 2000ms. -/
theorem rate_second_window_sequence_witness :
    (runChecks ⟨0, 0, 0, 0⟩ [0, 100, 200, 300, 400, 500]).fst =
      [true, true, true, true, true, false] ∧
    (checkRateLimit (runChecks ⟨0, 0, 0, 0⟩
        [0, 100, 200, 300, 400, 500]).snd 2000).fst = Except.ok () ∧
    (checkRateLimit (runChecks ⟨0, 0, 0, 0⟩
        [0, 100, 200, 300, 400, 500]).snd 2000).snd.second = 1 :=
  rate_second_window_sequence ⟨0, 0, 0, 0⟩ 0 100 200 300 400 500 2000
    rfl (by decide) (by decide) (by decide) (by decide)

/-- C2 counterexample: checks just before midnight saturate the second
window; the check at the stroke of the new day (86400000ms) has a
start-of-day strictly later than the stored `lastDayReset`, and the daily
counter is indeed reset to 0, yet admission does not resume: the call is
rejected because the second cap still blocks it (only 1ms has passed since
`lastSecondReset`). -/
theorem rate_day_rollover_blocked_by_second_cap :
    startOfDay 86400000 > (0 : Int) ∧
    (checkRateLimit ⟨40, 5, 86399999, 0⟩ 86400000).fst =
      Except.error "Rate limit exceeded" ∧
    (checkRateLimit ⟨40, 5, 86399999, 0⟩ 86400000).snd.daily = 0 :=
  ⟨by decide, rfl, rfl⟩

/-- C2 (amended): once `perDay` (= 100) calls have been counted, any
further check in the same day window fails with "Rate limit exceeded"
regardless of the second-window state; and a check whose start-of-day is
strictly later than the stored `lastDayReset` resets the daily counter to
0, and is admitted again (post-call daily counter 1) provided the
second window does not simultaneously block it (more than 1000ms after the
stored second-window start). -/
theorem rate_day_cap_and_rollover (rc : RequestCount) (now : Int) :
    (RATE_LIMIT.perDay ≤ rc.daily → startOfDay now ≤ rc.lastDayReset →
      (checkRateLimit rc now).fst = Except.error "Rate limit exceeded") ∧
    (rc.lastDayReset < startOfDay now →
      (rateMaintain rc now).daily = 0 ∧
      (1000 < now - rc.lastSecondReset →
        (checkRateLimit rc now).fst = Except.ok () ∧
        (checkRateLimit rc now).snd.daily = 1)) := by
  obtain ⟨-, hm2, hmd, -⟩ := rateMaintain_fields rc now
  constructor
  · intro hcap hday
    have hdy : (rateMaintain rc now).daily = rc.daily := by
      rw [hmd, if_neg (not_lt.mpr hday)]
    simp only [checkRateLimit]
    rw [if_pos (Or.inr (by rw [hdy]; exact hcap))]
  · intro hday
    have hdy : (rateMaintain rc now).daily = 0 := by rw [hmd, if_pos hday]
    refine ⟨hdy, fun hs => ?_⟩
    have hsec : (rateMaintain rc now).second = 0 := by
      obtain ⟨hm1, -⟩ := rateMaintain_fields rc now
      rw [hm1, if_pos hs]
    simp only [checkRateLimit]
    rw [if_neg (by
      push_neg
      rw [hsec, hdy]
      exact ⟨by simp [RATE_LIMIT], by simp [RATE_LIMIT]⟩)]
    simp [hdy]

/-- Concrete witness for `rate_day_cap_and_rollover`: a saturated daily
counter rejects within the same day, and a next-day check is admitted with
daily counter 1. -/
theorem rate_day_cap_and_rollover_witness :
    (checkRateLimit ⟨100, 0, 0, 0⟩ 500).fst =
      Except.error "Rate limit exceeded" ∧
    ((checkRateLimit ⟨40, 5, 0, 0⟩ 86402000).fst = Except.ok () ∧
      (checkRateLimit ⟨40, 5, 0, 0⟩ 86402000).snd.daily = 1) :=
  ⟨(rate_day_cap_and_rollover ⟨100, 0, 0, 0⟩ 500).1 (by decide) (by decide),
    ((rate_day_cap_and_rollover ⟨40, 5, 0, 0⟩ 86402000).2 (by decide)).2
      (by decide)⟩

/-- C3: invariants of `checkRateLimit`. At the moment a call is admitted
the incremented counters do not exceed the caps; the caps are preserved as
an invariant of arbitrary checks; the stored window-start timestamps only
move forward; on a "Rate limit exceeded" failure neither counter is
incremented (the state is exactly the window-maintained state); on success
both counters are exactly the window-maintained counters plus one. -/
theorem rate_counters_invariant (rc : RequestCount) (now : Int) :
    ((checkRateLimit rc now).fst = Except.ok () →
      (checkRateLimit rc now).snd.second ≤ RATE_LIMIT.perSecond ∧
      (checkRateLimit rc now).snd.daily ≤ RATE_LIMIT.perDay) ∧
    (rc.second ≤ RATE_LIMIT.perSecond → rc.daily ≤ RATE_LIMIT.perDay →
      (checkRateLimit rc now).snd.second ≤ RATE_LIMIT.perSecond ∧
      (checkRateLimit rc now).snd.daily ≤ RATE_LIMIT.perDay) ∧
    rc.lastSecondReset ≤ (checkRateLimit rc now).snd.lastSecondReset ∧
    rc.lastDayReset ≤ (checkRateLimit rc now).snd.lastDayReset ∧
    ((checkRateLimit rc now).fst = Except.error "Rate limit exceeded" →
      (checkRateLimit rc now).snd = rateMaintain rc now) ∧
    ((checkRateLimit rc now).fst = Except.ok () →
      (checkRateLimit rc now).snd.second = (rateMaintain rc now).second + 1 ∧
      (checkRateLimit rc now).snd.daily = (rateMaintain rc now).daily + 1) := by
  obtain ⟨hm2, hml, hmd, hmld⟩ := rateMaintain_fields rc now
  have hlsr : rc.lastSecondReset ≤ (rateMaintain rc now).lastSecondReset := by
    rw [hml]; split
    · omega
    · exact le_refl _
  have hldr : rc.lastDayReset ≤ (rateMaintain rc now).lastDayReset := by
    rw [hmld]; split
    · omega
    · exact le_refl _
  simp only [checkRateLimit]
  by_cases hg : RATE_LIMIT.perSecond ≤ (rateMaintain rc now).second ∨
      RATE_LIMIT.perDay ≤ (rateMaintain rc now).daily
  · rw [if_pos hg]
    refine ⟨fun h => absurd h (by simp), fun h1 h2 => ?_, hlsr, hldr,
      fun _ => rfl, fun h => absurd h (by simp)⟩
    constructor
    · rw [hm2]; split
      · exact Nat.zero_le _
      · exact h1
    · rw [hmd]; split
      · exact Nat.zero_le _
      · exact h2
  · rw [if_neg hg]
    push_neg at hg
    refine ⟨fun _ => ⟨hg.1, hg.2⟩, fun h1 h2 => ⟨hg.1, hg.2⟩, hlsr, hldr,
      fun h => absurd h (by simp), fun _ => ⟨rfl, rfl⟩⟩

/-- Concrete witness for `rate_counters_invariant` at a fresh counter. -/
theorem rate_counters_invariant_witness :
    (checkRateLimit ⟨0, 0, 0, 0⟩ 0).snd.second ≤ RATE_LIMIT.perSecond ∧
    (checkRateLimit ⟨0, 0, 0, 0⟩ 0).snd.daily ≤ RATE_LIMIT.perDay :=
  (rate_counters_invariant ⟨0, 0, 0, 0⟩ 0).1 rfl

/-- A JavaScript value as far as the argument-handling code observes one.
Numbers are modelled by their integer values (no claim exercises
fractional numerics); arrays and functions are not needed by any claim. -/
inductive JSVal where
  | str : String → JSVal
  | num : Int → JSVal
  | boolean : Bool → JSVal
  | null : JSVal
  | undef : JSVal
  | obj : List (String × JSVal) → JSVal

/-- Field access `args.k` / `"k" in args`: `none` when the value is not an
object or lacks the key. -/
def getField : JSVal → String → Option JSVal
  | JSVal.obj fields, k => fields.lookup k
  | _, _ => none

/-- `isGoogleWebSearchArgs` (index.ts 186-193): `args` is a non-null object
having a `query` field whose value is a string. Nothing else is checked. -/
def isGoogleWebSearchArgs (args : JSVal) : Bool :=
  match getField args "query" with
  | some (JSVal.str _) => true
  | _ => false

/-- `isGoogleImageSearchArgs` (index.ts 195-202): identical to the web
variant. -/
def isGoogleImageSearchArgs (args : JSVal) : Bool :=
  match getField args "query" with
  | some (JSVal.str _) => true
  | _ => false

/-- Models `const { k = dflt } = args`: the default applies when the field
is absent or `undefined`. -/
def destructure (args : JSVal) (k : String) (dflt : JSVal) : JSVal :=
  match getField args k with
  | some JSVal.undef => dflt
  | some v => v
  | none => dflt

/-- Parse a nonempty run of decimal digits to a number; `none` on the
empty list or any non-digit. -/
def digitsToNat : List Char → Option Nat
  | [] => none
  | cs =>
    cs.foldl
      (fun acc c =>
        match acc with
        | none => none
        | some n => if c.isDigit then some (n * 10 + (c.toNat - 48)) else none)
      (some 0)

/-- The JS `ToNumber` coercion of a string: trim whitespace, then an
optional sign followed by decimal digits; an empty or all-whitespace
string is 0, anything unparsable is NaN (`none`). Like the whole model,
restricted to integer-valued numerics. -/
def jsStringToNumber (s : String) : Option Int :=
  match ((s.data.dropWhile (·.isWhitespace)).reverse.dropWhile
      (·.isWhitespace)).reverse with
  | [] => some 0
  | '-' :: rest => (digitsToNat rest).map fun n => -(n : Int)
  | '+' :: rest => (digitsToNat rest).map fun n => (n : Int)
  | cs => (digitsToNat cs).map fun n => (n : Int)

/-- The JS `ToNumber` coercion on the values the claims exercise, with
`none` standing for `NaN` (model restricted to integer-valued numerics). -/
def toNumber : JSVal → Option Int
  | JSVal.num n => some n
  | JSVal.str s => jsStringToNumber s
  | JSVal.boolean b => some (if b then 1 else 0)
  | JSVal.null => some 0
  | JSVal.undef => none
  | JSVal.obj _ => none

/-- JS string interpolation / `.toString()` of a value. (In JS,
`.toString()` on `null` or `undefined` throws; the paths the claims
quantify over never do that, since absent `start` defaults to the number
1 before being stringified.) -/
def jsToString : JSVal → String
  | JSVal.str s => s
  | JSVal.num n => toString n
  | JSVal.boolean b => if b then "true" else "false"
  | JSVal.null => "null"
  | JSVal.undef => "undefined"
  | JSVal.obj _ => "[object Object]"

/-- JS truthiness of a value (`site && ...`). -/
def jsTruthy : JSVal → Bool
  | JSVal.str s => s != ""
  | JSVal.num n => n != 0
  | JSVal.boolean b => b
  | JSVal.null => false
  | JSVal.undef => false
  | JSVal.obj _ => true

/-- Whether the character list starts with the given pattern. -/
def startsWithList : List Char → List Char → Bool
  | _, [] => true
  | [], _ :: _ => false
  | a :: as, b :: bs => a == b && startsWithList as bs

/-- Whether the character list contains the pattern as a contiguous run. -/
def hasSubList (sub : List Char) : List Char → Bool
  | [] => sub.isEmpty
  | c :: cs => startsWithList (c :: cs) sub || hasSubList sub cs

/-- Models JS `s.includes(sub)`. -/
def jsIncludes (s sub : String) : Bool := hasSubList sub.toList s.toList

/-- The `searchQuery` computation in `performWebSearch` (index.ts 207-211):
if `site` is truthy and the query does not already contain "site:", append
" site:<site>"; otherwise leave the query unchanged. -/
def buildSearchQuery (query : String) (site : JSVal) : String :=
  if jsTruthy site && !(jsIncludes query "site:") then
    query ++ " site:" ++ jsToString site
  else query

/-- The query parameters set on the upstream URL (index.ts 213-218 and
249-255); `key` and `cx` carry the environment credentials. -/
structure UrlParams where
  key : String
  cx : String
  q : String
  num : String
  start : String
  searchType : Option String
deriving DecidableEq

/-- Models `Math.min(count, 10).toString()` for the `num` parameter
(index.ts 217): `Math.min` coerces its argument to a number and NaN
propagates. -/
def numParam (count : JSVal) : String :=
  match toNumber count with
  | some n => toString (min n 10)
  | none => "NaN"

/-- The parameters of the web-search request (index.ts 213-218). -/
def webParams (apiKey cseId query : String) (count start site : JSVal) :
    UrlParams :=
  { key := apiKey, cx := cseId, q := buildSearchQuery query site,
    num := numParam count, start := jsToString start, searchType := none }

/-- The parameters of the image-search request (index.ts 249-255). -/
def imageParams (apiKey cseId query : String) (count start : JSVal) :
    UrlParams :=
  { key := apiKey, cx := cseId, q := query,
    num := numParam count, start := jsToString start,
    searchType := some "image" }

/-- An item of the web-search payload as the formatter reads it: the
upstream JSON may omit any field, and a missing field interpolates as JS
`undefined`. -/
structure WebItem where
  title : Option String
  snippet : Option String
  link : Option String
deriving DecidableEq

/-- The `image` sub-object of an image result item (only the field the
formatter reads). -/
structure ImageInfo where
  thumbnailLink : Option String
deriving DecidableEq

/-- An item of the image-search payload as the formatter reads it. -/
structure ImageItem where
  title : Option String
  snippet : Option String
  link : Option String
  image : Option ImageInfo
deriving DecidableEq

/-- The embedded `error` object of an upstream payload. -/
structure APIError where
  code : Int
  message : String
deriving DecidableEq

/-- The parsed `GoogleSearchResult` envelope (index.ts 138-163), reduced to
the fields the code reads. -/
structure GoogleSearchResult where
  items : Option (List WebItem)
  error : Option APIError
deriving DecidableEq

/-- The parsed `GoogleImageSearchResult` envelope (index.ts 165-184). -/
structure GoogleImageSearchResult where
  items : Option (List ImageItem)
  error : Option APIError
deriving DecidableEq

/-- Outcome of the `fetch` to the upstream endpoint as the code
distinguishes it: a non-ok transport status (status line and body text) or
an ok status with a parsed payload. -/
inductive FetchOutcome (α : Type) where
  | httpError (status : Nat) (statusText : String) (body : String)
  | success (data : α)
deriving DecidableEq

/-- JS template interpolation of a possibly-missing field: `undefined`
interpolates as the string "undefined". -/
def jsField : Option String → String
  | some s => s
  | none => "undefined"

/-- Models `x || dflt` on a possibly-missing string field: `undefined` and
the empty string are falsy. -/
def jsOrElse (x : Option String) (dflt : String) : String :=
  match x with
  | some s => if s = "" then dflt else s
  | none => dflt

/-- Truthiness of a possibly-missing string (`undefined` and "" falsy). -/
def jsTruthyStr : Option String → Bool
  | some s => s != ""
  | none => false

/-- One web result block (index.ts 241-243). -/
def formatWebItem (index : Nat) (item : WebItem) : String :=
  "[" ++ toString (index + 1) ++ "] Title: " ++ jsField item.title ++
    "\nDescription: " ++ jsField item.snippet ++
    "\nURL: " ++ jsField item.link

/-- The expression `item.image?.thumbnailLink` (undefined when `image` is
missing). -/
def thumbnailOf (item : ImageItem) : Option String :=
  item.image.bind fun info => info.thumbnailLink

/-- One image result block (index.ts 278-280): the snippet falls back to
'No description'; the final line is "Thumbnail: <link>" when the thumbnail
is truthy and the empty string otherwise. -/
def formatImageItem (index : Nat) (item : ImageItem) : String :=
  "[" ++ toString (index + 1) ++ "] Title: " ++ jsField item.title ++
    "\nDescription: " ++ jsOrElse item.snippet "No description" ++
    "\nImage URL: " ++ jsField item.link ++ "\n" ++
    (if jsTruthyStr (thumbnailOf item) then
      "Thumbnail: " ++ jsField (thumbnailOf item)
     else "")

/-- The post-fetch part of `performWebSearch` (index.ts 230-243): an
embedded API error throws; a missing or empty items array returns the fixed
no-results sentence; otherwise the formatted blocks joined by blank
lines. -/
def webResultText (data : GoogleSearchResult) : Except String String :=
  match data.error with
  | some e =>
    Except.error ("Google API error: " ++ toString e.code ++ " " ++ e.message)
  | none =>
    match data.items with
    | none => Except.ok "No results found for your query."
    | some [] => Except.ok "No results found for your query."
    | some items =>
      Except.ok (String.intercalate "\n\n" (items.mapIdx formatWebItem))

/-- The post-fetch part of `performImageSearch` (index.ts 267-281). -/
def imageResultText (data : GoogleImageSearchResult) : Except String String :=
  match data.error with
  | some e =>
    Except.error ("Google API error: " ++ toString e.code ++ " " ++ e.message)
  | none =>
    match data.items with
    | none => Except.ok "No image results found for your query."
    | some [] => Except.ok "No image results found for your query."
    | some items =>
      Except.ok (String.intercalate "\n\n" (items.mapIdx formatImageItem))

/-- `performWebSearch` (index.ts 204-244): the rate-limit check comes
first (its state mutations persist even on throw); the outcome of the
upstream call on the composed parameters (`webParams`) is supplied as an
explicit argument; a non-ok transport status throws with the status line
and body. Returns the thrown-or-returned text with the requestCount state
afterwards. -/
def performWebSearch (rc : RequestCount) (now : Int)
    (query : String) (count start site : JSVal)
    (resp : FetchOutcome GoogleSearchResult) :
    Except String String × RequestCount :=
  match checkRateLimit rc now with
  | (Except.error e, rc') => (Except.error e, rc')
  | (Except.ok _, rc') =>
    match resp with
    | FetchOutcome.httpError status statusText body =>
      (Except.error ("Google API error: " ++ toString status ++ " " ++
        statusText ++ "\n" ++ body), rc')
    | FetchOutcome.success data => (webResultText data, rc')

/-- `performImageSearch` (index.ts 246-281), analogous. -/
def performImageSearch (rc : RequestCount) (now : Int)
    (query : String) (count start : JSVal)
    (resp : FetchOutcome GoogleImageSearchResult) :
    Except String String × RequestCount :=
  match checkRateLimit rc now with
  | (Except.error e, rc') => (Except.error e, rc')
  | (Except.ok _, rc') =>
    match resp with
    | FetchOutcome.httpError status statusText body =>
      (Except.error ("Google API error: " ++ toString status ++ " " ++
        statusText ++ "\n" ++ body), rc')
    | FetchOutcome.success data => (imageResultText data, rc')

/-- A tool invocation result: the single text content block of the
response envelope plus its `isError` flag. -/
structure ToolResult where
  text : String
  isError : Bool
deriving DecidableEq

/-- Wrapping of a pipeline outcome into the response envelope: a returned
text becomes a non-error result (index.ts 303-306), a thrown error is
rendered by the surrounding catch (index.ts 327-337) as "Error: <message>"
with `isError:true`. -/
def wrapExcept : Except String String → ToolResult
  | Except.ok s => { text := s, isError := false }
  | Except.error e => { text := "Error: " ++ e, isError := true }

/-- The destructured `query` field, after the type guard has established
that it is a string. -/
def queryOf (a : JSVal) : String :=
  match getField a "query" with
  | some (JSVal.str s) => s
  | _ => ""

/-- The CallTool request handler (index.ts 288-338): the missing-arguments
guard, per-tool validation, destructuring with defaults, the tool
pipeline, the unknown-tool default case, and the surrounding catch that
renders any thrown error as "Error: <message>" with `isError:true`.
Returns the response together with the requestCount state afterwards. -/
def handleCallTool (name : String) (args : Option JSVal)
    (rc : RequestCount) (now : Int)
    (webResp : FetchOutcome GoogleSearchResult)
    (imageResp : FetchOutcome GoogleImageSearchResult) :
    ToolResult × RequestCount :=
  match args with
  | none => ({ text := "Error: No arguments provided", isError := true }, rc)
  | some a =>
    if name = "google_web_search" then
      if isGoogleWebSearchArgs a then
        let count := destructure a "count" (JSVal.num 5)
        let start := destructure a "start" (JSVal.num 1)
        let site := destructure a "site" (JSVal.str "")
        let p := performWebSearch rc now (queryOf a) count start site webResp
        (wrapExcept p.fst, p.snd)
      else
        ({ text := "Error: Invalid arguments for google_web_search",
           isError := true }, rc)
    else if name = "google_image_search" then
      if isGoogleImageSearchArgs a then
        let count := destructure a "count" (JSVal.num 5)
        let start := destructure a "start" (JSVal.num 1)
        let p := performImageSearch rc now (queryOf a) count start imageResp
        (wrapExcept p.fst, p.snd)
      else
        ({ text := "Error: Invalid arguments for google_image_search",
           isError := true }, rc)
    else
      ({ text := "Unknown tool: " ++ name, isError := true }, rc)

theorem checkRateLimit_ok_counts (rc : RequestCount) (now : Int)
    (h : (checkRateLimit rc now).fst = Except.ok ()) :
    (checkRateLimit rc now).snd.second = (rateMaintain rc now).second + 1 ∧
    (checkRateLimit rc now).snd.daily = (rateMaintain rc now).daily + 1 := by
  simp only [checkRateLimit] at h ⊢
  by_cases hg : RATE_LIMIT.perSecond ≤ (rateMaintain rc now).second ∨
      RATE_LIMIT.perDay ≤ (rateMaintain rc now).daily
  · rw [if_pos hg] at h
    simp at h
  · rw [if_neg hg]
    exact ⟨rfl, rfl⟩

theorem performWebSearch_state (rc : RequestCount) (now : Int)
    (query : String) (count start site : JSVal)
    (resp : FetchOutcome GoogleSearchResult) :
    (performWebSearch rc now query count start site resp).snd =
      (checkRateLimit rc now).snd := by
  unfold performWebSearch
  rcases checkRateLimit rc now with ⟨res, rc'⟩
  cases res with
  | error e => rfl
  | ok u =>
    cases resp with
    | httpError s st b => rfl
    | success data => rfl

theorem performImageSearch_state (rc : RequestCount) (now : Int)
    (query : String) (count start : JSVal)
    (resp : FetchOutcome GoogleImageSearchResult) :
    (performImageSearch rc now query count start resp).snd =
      (checkRateLimit rc now).snd := by
  unfold performImageSearch
  rcases checkRateLimit rc now with ⟨res, rc'⟩
  cases res with
  | error e => rfl
  | ok u =>
    cases resp with
    | httpError s st b => rfl
    | success data => rfl

/-- C6: for a validated web search request, if `site` is a non-empty
string and the raw query does not already contain a "site:" token, the
upstream query text is the raw query with " site:<site>" appended; if
`site` is empty, or the query already contains "site:", the query text is
left unchanged. -/
theorem site_append_behavior (query site : String) :
    (site ≠ "" → jsIncludes query "site:" = false →
      buildSearchQuery query (JSVal.str site) = query ++ " site:" ++ site) ∧
    (site = "" → buildSearchQuery query (JSVal.str site) = query) ∧
    (jsIncludes query "site:" = true →
      buildSearchQuery query (JSVal.str site) = query) := by
  refine ⟨fun h1 h2 => ?_, fun h1 => ?_, fun h1 => ?_⟩
  · simp [buildSearchQuery, jsTruthy, jsToString, h1, h2]
  · simp [buildSearchQuery, jsTruthy, h1]
  · simp [buildSearchQuery, jsTruthy, h1]

/-- Concrete witness for `site_append_behavior`: query "foo" with site
"example.com" composes "foo site:example.com"; a query that already
contains "site:" is left unchanged. -/
theorem site_append_behavior_witness :
    buildSearchQuery "foo" (JSVal.str "example.com") = "foo site:example.com" ∧
    buildSearchQuery "foo site:bar.com" (JSVal.str "example.com") =
      "foo site:bar.com" :=
  ⟨((site_append_behavior "foo" "example.com").1 (by decide)
      (by decide)).trans rfl,
   (site_append_behavior "foo site:bar.com" "example.com").2.2 (by decide)⟩

/-- C4 counterexample: an argument bag with `count` = 99 (outside [1,10])
is not rejected with InvalidArguments: it passes validation, reaches the
rate limiter (consuming quota, second counter becomes 1) and the upstream
call, and the invocation returns a non-error result. -/
theorem count_out_of_range_passes_validation :
    isGoogleWebSearchArgs
      (JSVal.obj [("query", JSVal.str "foo"), ("count", JSVal.num 99)]) =
      true ∧
    (handleCallTool "google_web_search"
      (some (JSVal.obj [("query", JSVal.str "foo"), ("count", JSVal.num 99)]))
      ⟨0, 0, 0, 0⟩ 0 (FetchOutcome.success ⟨some [], none⟩)
      (FetchOutcome.success ⟨some [], none⟩)).fst.isError = false ∧
    (handleCallTool "google_web_search"
      (some (JSVal.obj [("query", JSVal.str "foo"), ("count", JSVal.num 99)]))
      ⟨0, 0, 0, 0⟩ 0 (FetchOutcome.success ⟨some [], none⟩)
      (FetchOutcome.success ⟨some [], none⟩)).snd.second = 1 :=
  ⟨rfl, rfl, rfl⟩

/-- C4 (amended): validation accepts every object bag whose `query` field
is a string — `count` and `start` are not type- or range-checked, so no
InvalidArguments failure occurs for out-of-range values; the upper bound
on `count` is enforced only by the clamp `Math.min(count, 10)` when the
upstream `num` parameter is built, and nothing enforces `start ≥ 1` (it is
passed through unchanged). -/
theorem validation_no_range_check :
    (∀ (fields : List (String × JSVal)) (q : String),
      fields.lookup "query" = some (JSVal.str q) →
      isGoogleWebSearchArgs (JSVal.obj fields) = true ∧
      isGoogleImageSearchArgs (JSVal.obj fields) = true) ∧
    (∀ n : Int, numParam (JSVal.num n) = toString (min n 10)) ∧
    (∀ (k c q : String) (count site : JSVal) (n : Int),
      (webParams k c q count (JSVal.num n) site).start = toString n) := by
  refine ⟨fun fields q h => ?_, fun n => rfl, fun k c q count site n => rfl⟩
  constructor <;> simp [isGoogleWebSearchArgs, isGoogleImageSearchArgs,
    getField, h]

/-- Concrete witness for `validation_no_range_check`: `count` = 0 and
`start` = 0 are accepted, and `count` = 99 is clamped to 10 in the `num`
parameter. -/
theorem validation_no_range_check_witness :
    isGoogleWebSearchArgs
      (JSVal.obj [("query", JSVal.str "x"), ("count", JSVal.num 0),
        ("start", JSVal.num 0)]) = true ∧
    numParam (JSVal.num 99) = toString (min (99 : Int) 10) :=
  ⟨(validation_no_range_check.1
      [("query", JSVal.str "x"), ("count", JSVal.num 0),
        ("start", JSVal.num 0)] "x" rfl).1,
   validation_no_range_check.2.1 99⟩

/-- C5 counterexample: a blank `query` (the empty string) passes
validation, reaches the rate limiter, and both rate counters are
incremented — so the counters are changed by a call the claim says must be
rejected by validation before any counter increment. -/
theorem blank_query_passes_validation :
    isGoogleWebSearchArgs (JSVal.obj [("query", JSVal.str "")]) = true ∧
    (handleCallTool "google_web_search"
      (some (JSVal.obj [("query", JSVal.str "")])) ⟨0, 0, 0, 0⟩ 0
      (FetchOutcome.success ⟨some [], none⟩)
      (FetchOutcome.success ⟨some [], none⟩)).snd.second = 1 ∧
    (handleCallTool "google_web_search"
      (some (JSVal.obj [("query", JSVal.str "")])) ⟨0, 0, 0, 0⟩ 0
      (FetchOutcome.success ⟨some [], none⟩)
      (FetchOutcome.success ⟨some [], none⟩)).snd.daily = 1 :=
  ⟨rfl, rfl, rfl⟩

/-- C5 (amended): a bag whose `query` field is missing (or not a string)
fails validation with InvalidArguments before any counter increment,
leaving the rate counters unchanged; a blank (empty-string) `query`,
however, passes validation and does consume rate-limit quota. -/
theorem missing_query_rejected_before_rate_limit :
    (∀ (fields : List (String × JSVal)),
      fields.lookup "query" = none →
      isGoogleWebSearchArgs (JSVal.obj fields) = false) ∧
    (∀ (a : JSVal) (rc : RequestCount) (now : Int)
      (wr : FetchOutcome GoogleSearchResult)
      (ir : FetchOutcome GoogleImageSearchResult),
      isGoogleWebSearchArgs a = false →
      handleCallTool "google_web_search" (some a) rc now wr ir =
        ({ text := "Error: Invalid arguments for google_web_search",
           isError := true }, rc)) ∧
    isGoogleWebSearchArgs (JSVal.obj [("query", JSVal.str "")]) = true := by
  refine ⟨fun fields h => ?_, fun a rc now wr ir h => ?_, rfl⟩
  · simp [isGoogleWebSearchArgs, getField, h]
  · simp [handleCallTool, h]

/-- Concrete witness for `missing_query_rejected_before_rate_limit`: a bag
without a `query` key is rejected and the counters ⟨3, 2, 5, 7⟩ come back
untouched. -/
theorem missing_query_rejected_before_rate_limit_witness :
    isGoogleWebSearchArgs (JSVal.obj [("q", JSVal.str "x")]) = false ∧
    handleCallTool "google_web_search"
      (some (JSVal.obj [("q", JSVal.str "x")])) ⟨3, 2, 5, 7⟩ 9
      (FetchOutcome.success ⟨none, none⟩)
      (FetchOutcome.success ⟨none, none⟩) =
      ({ text := "Error: Invalid arguments for google_web_search",
         isError := true }, ⟨3, 2, 5, 7⟩) :=
  ⟨missing_query_rejected_before_rate_limit.1 [("q", JSVal.str "x")] rfl,
   missing_query_rejected_before_rate_limit.2.1 _ _ _ _ _
     (missing_query_rejected_before_rate_limit.1 [("q", JSVal.str "x")] rfl)⟩

/-- The lines of a rendered block: the characters split on newline. -/
def linesOf (s : String) : List String :=
  (s.data.splitOn '\n').map fun cs => String.mk cs

/-- C7 counterexample: an image result item whose thumbnail link is
missing renders an empty final line — the template interpolates the empty
string, dropping the "Thumbnail:" label — so the field's line is left
empty rather than filled with a fixed placeholder (no placeholder such as
"No title available" exists anywhere in the formatters). -/
theorem missing_thumbnail_renders_empty_line :
    formatImageItem 0 ⟨some "T", some "S", some "L", none⟩ =
      "[1] Title: T\nDescription: S\nImage URL: L\n" ∧
    (linesOf (formatImageItem 0 ⟨some "T", some "S", some "L", none⟩)).getLast?
      = some "" :=
  ⟨rfl, by decide⟩

/-- C7 (amended): only the image snippet has a placeholder — a missing or
empty snippet in an image item renders exactly as the fixed text
"No description". The web formatter renders a missing field as the JS
coercion string "undefined" (never dropping the line), and a missing or
empty thumbnail link renders an empty final line with the label dropped,
rather than a placeholder; block line counts stay 3 (web) and 4 (image)
for newline-free field values. -/
theorem formatter_placeholder_behavior :
    (∀ (i : Nat) (t l : Option String) (img : Option ImageInfo),
      formatImageItem i ⟨t, none, l, img⟩ =
        formatImageItem i ⟨t, some "No description", l, img⟩) ∧
    (∀ (i : Nat) (t l : Option String) (img : Option ImageInfo),
      formatImageItem i ⟨t, some "", l, img⟩ =
        formatImageItem i ⟨t, some "No description", l, img⟩) ∧
    (∀ (i : Nat) (t l : Option String),
      formatWebItem i ⟨t, none, l⟩ = formatWebItem i ⟨t, some "undefined", l⟩) ∧
    linesOf (formatWebItem 0 ⟨some "T", none, some "L"⟩) =
      ["[1] Title: T", "Description: undefined", "URL: L"] ∧
    linesOf (formatImageItem 0 ⟨some "T", none, some "L", none⟩) =
      ["[1] Title: T", "Description: No description", "Image URL: L", ""] ∧
    linesOf (formatImageItem 0 ⟨some "T", some "S", some "L", some ⟨some "U"⟩⟩)
      = ["[1] Title: T", "Description: S", "Image URL: L", "Thumbnail: U"] :=
  ⟨fun i t l img => rfl, fun i t l img => rfl, fun i t l => rfl,
    by decide, by decide, by decide⟩

/-- C8: for n ≥ 1 upstream items the formatted output is the blocks in
input order joined by one blank-line separator; there are exactly n
blocks; the i-th block is the i-th item rendered with 1-indexed number
i+1 (its text begins "[i+1] Title: ", followed by the description and URL
lines of the template, and an image block additionally ends with a
"Thumbnail: <link>" line when the item carries a thumbnail); zero items (a
missing or empty array) yield a fixed no-results sentence whose wording
differs between web and image search. -/
theorem formatter_block_structure :
    (∀ (items : List WebItem), items ≠ [] →
      webResultText ⟨some items, none⟩ =
        Except.ok (String.intercalate "\n\n" (items.mapIdx formatWebItem)) ∧
      (items.mapIdx formatWebItem).length = items.length ∧
      (∀ (i : Nat) (h1 : i < items.length)
        (h2 : i < (items.mapIdx formatWebItem).length),
        (items.mapIdx formatWebItem)[i] = formatWebItem i items[i]) ∧
      (∀ (i : Nat) (item : WebItem), ∃ rest,
        formatWebItem i item =
          "[" ++ toString (i + 1) ++ "] Title: " ++ rest)) ∧
    (∀ (items : List ImageItem), items ≠ [] →
      imageResultText ⟨some items, none⟩ =
        Except.ok (String.intercalate "\n\n" (items.mapIdx formatImageItem)) ∧
      (items.mapIdx formatImageItem).length = items.length ∧
      (∀ (i : Nat) (h1 : i < items.length)
        (h2 : i < (items.mapIdx formatImageItem).length),
        (items.mapIdx formatImageItem)[i] = formatImageItem i items[i]) ∧
      (∀ (i : Nat) (item : ImageItem), ∃ rest,
        formatImageItem i item =
          "[" ++ toString (i + 1) ++ "] Title: " ++ rest)) ∧
    (∀ (i : Nat) (item : ImageItem),
      jsTruthyStr (thumbnailOf item) = true → ∃ rest,
      formatImageItem i item =
        rest ++ "\n" ++ "Thumbnail: " ++ jsField (thumbnailOf item)) ∧
    webResultText ⟨some [], none⟩ =
      Except.ok "No results found for your query." ∧
    webResultText ⟨none, none⟩ =
      Except.ok "No results found for your query." ∧
    imageResultText ⟨some [], none⟩ =
      Except.ok "No image results found for your query." ∧
    imageResultText ⟨none, none⟩ =
      Except.ok "No image results found for your query." ∧
    ("No results found for your query." : String) ≠
      "No image results found for your query." := by
  refine ⟨fun items h => ?_, fun items h => ?_, fun i item ht =>
    ⟨"[" ++ toString (i + 1) ++ "] Title: " ++ jsField item.title ++
      "\nDescription: " ++ jsOrElse item.snippet "No description" ++
      "\nImage URL: " ++ jsField item.link, by
        simp only [formatImageItem, if_pos ht, String.append_assoc]⟩,
    rfl, rfl, rfl, rfl, by decide⟩
  · match items with
    | a :: as =>
      refine ⟨rfl, by simp, fun i h1 h2 => by
        simp only [List.getElem_mapIdx], fun i item =>
        ⟨jsField item.title ++ "\nDescription: " ++ jsField item.snippet ++
          "\nURL: " ++ jsField item.link, ?_⟩⟩
      simp only [formatWebItem, String.append_assoc]
  · match items with
    | a :: as =>
      refine ⟨rfl, by simp, fun i h1 h2 => by
        simp only [List.getElem_mapIdx], fun i item =>
        ⟨jsField item.title ++ "\nDescription: " ++
          jsOrElse item.snippet "No description" ++ "\nImage URL: " ++
          jsField item.link ++ "\n" ++
          (if jsTruthyStr (thumbnailOf item) then
            "Thumbnail: " ++ jsField (thumbnailOf item)
           else ""), ?_⟩⟩
      simp only [formatImageItem, String.append_assoc]

/-- Concrete witness for `formatter_block_structure`: two web items render
as two numbered blocks separated by one blank line. -/
theorem formatter_block_structure_witness :
    webResultText
      ⟨some [⟨some "A", some "B", some "C"⟩, ⟨some "D", some "E", some "F"⟩],
        none⟩ =
      Except.ok (String.intercalate "\n\n"
        ([⟨some "A", some "B", some "C"⟩,
          ⟨some "D", some "E", some "F"⟩].mapIdx formatWebItem)) ∧
    String.intercalate "\n\n"
        ([(⟨some "A", some "B", some "C"⟩ : WebItem),
          ⟨some "D", some "E", some "F"⟩].mapIdx formatWebItem) =
      "[1] Title: A\nDescription: B\nURL: C\n\n[2] Title: D\nDescription: E\nURL: F" :=
  ⟨(formatter_block_structure.1
      [⟨some "A", some "B", some "C"⟩, ⟨some "D", some "E", some "F"⟩]
      (by simp)).1, rfl⟩

theorem handleCallTool_web_eq (a : JSVal) (rc : RequestCount) (now : Int)
    (wr : FetchOutcome GoogleSearchResult)
    (ir : FetchOutcome GoogleImageSearchResult)
    (hv : isGoogleWebSearchArgs a = true) :
    handleCallTool "google_web_search" (some a) rc now wr ir =
      (wrapExcept (performWebSearch rc now (queryOf a)
          (destructure a "count" (JSVal.num 5))
          (destructure a "start" (JSVal.num 1))
          (destructure a "site" (JSVal.str "")) wr).fst,
        (performWebSearch rc now (queryOf a)
          (destructure a "count" (JSVal.num 5))
          (destructure a "start" (JSVal.num 1))
          (destructure a "site" (JSVal.str "")) wr).snd) := by
  simp [handleCallTool, hv]

theorem handleCallTool_image_eq (a : JSVal) (rc : RequestCount) (now : Int)
    (wr : FetchOutcome GoogleSearchResult)
    (ir : FetchOutcome GoogleImageSearchResult)
    (hv : isGoogleImageSearchArgs a = true) :
    handleCallTool "google_image_search" (some a) rc now wr ir =
      (wrapExcept (performImageSearch rc now (queryOf a)
          (destructure a "count" (JSVal.num 5))
          (destructure a "start" (JSVal.num 1)) ir).fst,
        (performImageSearch rc now (queryOf a)
          (destructure a "count" (JSVal.num 5))
          (destructure a "start" (JSVal.num 1)) ir).snd) := by
  simp [handleCallTool, hv]

theorem handleCallTool_web_invalid (a : JSVal) (rc : RequestCount)
    (now : Int) (wr : FetchOutcome GoogleSearchResult)
    (ir : FetchOutcome GoogleImageSearchResult)
    (hv : isGoogleWebSearchArgs a = false) :
    handleCallTool "google_web_search" (some a) rc now wr ir =
      ({ text := "Error: Invalid arguments for google_web_search",
         isError := true }, rc) := by
  simp [handleCallTool, hv]

theorem handleCallTool_image_invalid (a : JSVal) (rc : RequestCount)
    (now : Int) (wr : FetchOutcome GoogleSearchResult)
    (ir : FetchOutcome GoogleImageSearchResult)
    (hv : isGoogleImageSearchArgs a = false) :
    handleCallTool "google_image_search" (some a) rc now wr ir =
      ({ text := "Error: Invalid arguments for google_image_search",
         isError := true }, rc) := by
  simp [handleCallTool, hv]

theorem handleCallTool_unknown_eq (name : String) (a : JSVal)
    (rc : RequestCount) (now : Int) (wr : FetchOutcome GoogleSearchResult)
    (ir : FetchOutcome GoogleImageSearchResult)
    (h1 : name ≠ "google_web_search") (h2 : name ≠ "google_image_search") :
    handleCallTool name (some a) rc now wr ir =
      ({ text := "Unknown tool: " ++ name, isError := true }, rc) := by
  simp [handleCallTool, h1, h2]

theorem wrapExcept_isError (r : Except String String)
    (h : (wrapExcept r).isError = true) :
    ∃ m, (wrapExcept r).text = "Error: " ++ m := by
  cases r with
  | ok s => simp [wrapExcept] at h
  | error e => exact ⟨e, rfl⟩

/-- C9 counterexample: dispatching an unknown tool name yields
`isError:true` with text "Unknown tool: bogus_tool" — that message does
not enumerate (or even mention) the two known tool names, contrary to the
claim. -/
theorem unknown_tool_message_lacks_tool_names :
    (handleCallTool "bogus_tool" (some (JSVal.obj [])) ⟨0, 0, 0, 0⟩ 0
      (FetchOutcome.success ⟨none, none⟩)
      (FetchOutcome.success ⟨none, none⟩)).fst =
      { text := "Unknown tool: bogus_tool", isError := true } ∧
    jsIncludes "Unknown tool: bogus_tool" "google_web_search" = false ∧
    jsIncludes "Unknown tool: bogus_tool" "google_image_search" = false :=
  ⟨rfl, by decide, by decide⟩

/-- C9 (amended): dispatch is a total function (no failure escapes it) and
every invocation that comes back with `isError:true` has one of exactly
two text shapes: "Error: <message>" (the catch rendering of every thrown
failure — missing arguments, invalid arguments, rate limit, transport
error, upstream API error), or, for an unknown tool name, the direct
result "Unknown tool: <name>", which does not enumerate the known tool
names. -/
theorem dispatch_error_shape (name : String) (args : Option JSVal)
    (rc : RequestCount) (now : Int)
    (wr : FetchOutcome GoogleSearchResult)
    (ir : FetchOutcome GoogleImageSearchResult)
    (h : (handleCallTool name args rc now wr ir).fst.isError = true) :
    (∃ m, (handleCallTool name args rc now wr ir).fst.text = "Error: " ++ m) ∨
    (name ≠ "google_web_search" ∧ name ≠ "google_image_search" ∧
      (handleCallTool name args rc now wr ir).fst.text =
        "Unknown tool: " ++ name) := by
  cases args with
  | none => exact Or.inl ⟨"No arguments provided", rfl⟩
  | some a =>
    by_cases h1 : name = "google_web_search"
    · subst h1
      by_cases hv : isGoogleWebSearchArgs a = true
      · rw [handleCallTool_web_eq a rc now wr ir hv] at h ⊢
        exact Or.inl (wrapExcept_isError _ h)
      · have hv' : isGoogleWebSearchArgs a = false := by
          simpa using hv
        rw [handleCallTool_web_invalid a rc now wr ir hv']
        exact Or.inl ⟨"Invalid arguments for google_web_search", rfl⟩
    · by_cases h2 : name = "google_image_search"
      · subst h2
        by_cases hv : isGoogleImageSearchArgs a = true
        · rw [handleCallTool_image_eq a rc now wr ir hv] at h ⊢
          exact Or.inl (wrapExcept_isError _ h)
        · have hv' : isGoogleImageSearchArgs a = false := by
            simpa using hv
          rw [handleCallTool_image_invalid a rc now wr ir hv']
          exact Or.inl ⟨"Invalid arguments for google_image_search", rfl⟩
      · rw [handleCallTool_unknown_eq name a rc now wr ir h1 h2]
        exact Or.inr ⟨h1, h2, rfl⟩

/-- Concrete witness for `dispatch_error_shape`: the missing-arguments
failure is rendered in the "Error: <message>" shape. -/
theorem dispatch_error_shape_witness :
    (∃ m, (handleCallTool "google_web_search" none ⟨0, 0, 0, 0⟩ 0
      (FetchOutcome.success ⟨none, none⟩)
      (FetchOutcome.success ⟨none, none⟩)).fst.text = "Error: " ++ m) ∨
    (("google_web_search" : String) ≠ "google_web_search" ∧
      ("google_web_search" : String) ≠ "google_image_search" ∧
      (handleCallTool "google_web_search" none ⟨0, 0, 0, 0⟩ 0
        (FetchOutcome.success ⟨none, none⟩)
        (FetchOutcome.success ⟨none, none⟩)).fst.text =
        "Unknown tool: " ++ "google_web_search") :=
  dispatch_error_shape "google_web_search" none ⟨0, 0, 0, 0⟩ 0
    (FetchOutcome.success ⟨none, none⟩)
    (FetchOutcome.success ⟨none, none⟩) rfl

/-- C10 (implicit): validation accepts every object bag whose `query`
field is a string, with no type or range check on `count`, `start` or
`site`; with a non-numeric `count` the invocation still passes validation
and consumes rate-limit quota when the limiter admits it, and the
unchecked values flow into the upstream request parameters —
`Math.min(count, 10)` evaluates to NaN so the `num` parameter becomes
"NaN", while `start` is stringified as given. -/
theorem validation_unchecked_fields_flow :
    (∀ (fields : List (String × JSVal)) (q : String),
      fields.lookup "query" = some (JSVal.str q) →
      isGoogleWebSearchArgs (JSVal.obj fields) = true) ∧
    (∀ (k c q : String) (count start site : JSVal),
      toNumber count = none →
      (webParams k c q count start site).num = "NaN" ∧
      (webParams k c q count start site).start = jsToString start) ∧
    (∀ (a : JSVal) (rc : RequestCount) (now : Int)
      (wr : FetchOutcome GoogleSearchResult)
      (ir : FetchOutcome GoogleImageSearchResult),
      isGoogleWebSearchArgs a = true →
      (checkRateLimit rc now).fst = Except.ok () →
      (handleCallTool "google_web_search" (some a) rc now wr ir).snd.second =
        (rateMaintain rc now).second + 1 ∧
      (handleCallTool "google_web_search" (some a) rc now wr ir).snd.daily =
        (rateMaintain rc now).daily + 1) := by
  refine ⟨fun fields q h => ?_, fun k c q count start site h =>
    ⟨by simp [webParams, numParam, h], rfl⟩, fun a rc now wr ir hv hok => ?_⟩
  · simp [isGoogleWebSearchArgs, getField, h]
  · rw [handleCallTool_web_eq a rc now wr ir hv]
    simp only [performWebSearch_state]
    exact checkRateLimit_ok_counts rc now hok

/-- Concrete witness for `validation_unchecked_fields_flow`: a bag with
string `query` and the non-numeric count "abc" passes validation, the
`num` parameter becomes "NaN", and the admitted call consumes quota. -/
theorem validation_unchecked_fields_flow_witness :
    isGoogleWebSearchArgs
      (JSVal.obj [("query", JSVal.str "a"), ("count", JSVal.str "abc")]) =
      true ∧
    (webParams "k" "c" "a" (JSVal.str "abc") (JSVal.str "xyz")
      (JSVal.str "")).num = "NaN" ∧
    (handleCallTool "google_web_search"
      (some (JSVal.obj [("query", JSVal.str "a"), ("count", JSVal.str "abc")]))
      ⟨0, 0, 0, 0⟩ 0 (FetchOutcome.success ⟨none, none⟩)
      (FetchOutcome.success ⟨none, none⟩)).snd.second =
      (rateMaintain ⟨0, 0, 0, 0⟩ 0).second + 1 :=
  ⟨validation_unchecked_fields_flow.1
      [("query", JSVal.str "a"), ("count", JSVal.str "abc")] "a" rfl,
   (validation_unchecked_fields_flow.2.1 "k" "c" "a" (JSVal.str "abc")
      (JSVal.str "xyz") (JSVal.str "") rfl).1,
   (validation_unchecked_fields_flow.2.2
      (JSVal.obj [("query", JSVal.str "a"), ("count", JSVal.str "abc")])
      ⟨0, 0, 0, 0⟩ 0 (FetchOutcome.success ⟨none, none⟩)
      (FetchOutcome.success ⟨none, none⟩) rfl rfl).1⟩
